import Mathlib

/-!
Shallow embedding of the Alertmanager → Discord webhook adapter
(deploy/observability/alertmanager/discord-webhook-adapter.py).

Python strings are modelled as Lean strings (sequences of characters);
the slice s[:n] becomes pytrunc, str.upper becomes pyupper (character-wise
Char.toUpper, as for the ASCII severities used here), and ', '.join
becomes pyjoin.  Python dicts of strings are association lists in
insertion order; dict.get k d is lookupD.  The current UTC time produced
by datetime.utcnow().isoformat() is passed in as an explicit `now`
parameter.  The outbound HTTP POST of send_to_discord is modelled by a
`postOk` oracle together with an `Option Payload` result component that
records whether (and with which payload) an outbound call was performed:
`none` means no HTTP request was made.
-/

namespace DiscordAdapter

/-- An Alertmanager alert record: the optional status string, the labels
and annotation maps (string key → string value, in insertion order), and
the optional startsAt timestamp. -/
structure Alert where
  status : Option String
  labels : List (String × String)
  annotations : List (String × String)
  startsAt : Option String
deriving DecidableEq

/-- Python dict.get k d on a string-to-string dict. -/
def lookupD (m : List (String × String)) (k d : String) : String :=
  match m.lookup k with
  | some v => v
  | none => d

/-- Python s[:n]: the first n characters of s. -/
def pytrunc (s : String) (n : Nat) : String := String.mk (s.data.take n)

/-- Python str.upper, character-wise (faithful for the ASCII data here). -/
def pyupper (s : String) : String := String.mk (s.data.map Char.toUpper)

/-- Python sep.join applied to a list of strings. -/
def pyjoin (sep : String) : List String → String
  | [] => ""
  | [x] => x
  | x :: xs => x ++ sep ++ pyjoin sep xs

/-- The COLORS table of the adapter: Discord embed colors keyed by
category (lines 18-23 of the source). -/
def COLORS : List (String × Nat) :=
  [("critical", 0xFF0000),
   ("warning", 0xFFA500),
   ("info", 0x00FF00),
   ("resolved", 0x00FF00)]

/-- Lookup in the COLORS table (COLORS[k] in the source; the source only
ever uses the four keys present in the table). -/
def colorOf (k : String) : Nat := (COLORS.lookup k).getD 0

/-- status = alert.get('status', 'firing'). -/
def statusOf (a : Alert) : String := a.status.getD "firing"

/-- severity = labels.get('severity', 'info'). -/
def severityOf (a : Alert) : String := lookupD a.labels "severity" "info"

/-- monitor = labels.get('monitor', 'unknown'). -/
def monitorOf (a : Alert) : String := lookupD a.labels "monitor" "unknown"

/-- alert_name = labels.get('alertname', 'Alert'). -/
def alertNameOf (a : Alert) : String := lookupD a.labels "alertname" "Alert"

/-- component = labels.get('component', 'system'). -/
def componentOf (a : Alert) : String := lookupD a.labels "component" "system"

/-- The category selected by the color/prefix if-chain of
format_alert_for_discord (lines 36-48): resolved status first, then
critical, then warning, then info. -/
def categoryOf (a : Alert) : String :=
  if statusOf a = "resolved" then "resolved"
  else if severityOf a = "critical" then "critical"
  else if severityOf a = "warning" then "warning"
  else "info"

/-- The title glyph+label chosen by the same if-chain. -/
def titlePreOf (a : Alert) : String :=
  if statusOf a = "resolved" then "✅ RESOLVED"
  else if severityOf a = "critical" then "🔥 CRITICAL"
  else if severityOf a = "warning" then "⚠️ WARNING"
  else "ℹ️ INFO"

/-- One entry of a Discord embed's fields list. -/
structure Field where
  name : String
  value : String
  inline : Bool
deriving DecidableEq

/-- A Discord embed as built by format_alert_for_discord. -/
structure Embed where
  title : String
  description : String
  color : Nat
  fields : List Field
  timestamp : String
deriving DecidableEq

/-- other_labels: all labels entries except alertname, severity, monitor
and component (line 100-101 of the source). -/
def otherLabels (a : Alert) : List (String × String) :=
  a.labels.filter fun kv =>
    !(kv.1 == "alertname" || kv.1 == "severity" || kv.1 == "monitor" || kv.1 == "component")

/-- Python truthiness of an optional string value (annotations.get(k)
followed by an if on the result): present and non-empty. -/
def truthy : Option String → Bool
  | some s => !(s == "")
  | none => false

/-- The fields list built by format_alert_for_discord through its sequence
of conditional embed['fields'].append calls (lines 59-107). -/
def buildFieldsList (alert : Alert) : List Field :=
  let fields : List Field := []
  let fields := if monitorOf alert ≠ "unknown" then
      fields ++ [⟨"Monitor", monitorOf alert, true⟩] else fields
  let fields := if componentOf alert ≠ "" then
      fields ++ [⟨"Component", componentOf alert, true⟩] else fields
  let fields := fields ++ [⟨"Severity", pyupper (severityOf alert), true⟩]
  let fields := if truthy (alert.annotations.lookup "description") then
      fields ++ [⟨"Details", pytrunc ((alert.annotations.lookup "description").getD "") 1024,
        false⟩]
    else fields
  let fields := if truthy (alert.annotations.lookup "dashboard") then
      fields ++ [⟨"Dashboard",
        "[View Dashboard](" ++ (alert.annotations.lookup "dashboard").getD "" ++ ")", false⟩]
    else fields
  let fields := if otherLabels alert ≠ [] then
      fields ++ [⟨"Labels",
        pytrunc (pyjoin ", " ((otherLabels alert).map fun kv => kv.1 ++ "=" ++ kv.2)) 1024,
        false⟩]
    else fields
  fields

/-- format_alert_for_discord (lines 25-109): translate one alert into a
Discord embed. -/
def format_alert_for_discord (now : String) (alert : Alert) : Embed :=
  { title := titlePreOf alert ++ ": " ++ alertNameOf alert
    description := lookupD alert.annotations "summary"
      ("Alert " ++ alertNameOf alert ++ " is " ++ statusOf alert)
    color := colorOf (categoryOf alert)
    fields := buildFieldsList alert
    timestamp := alert.startsAt.getD now }

/-- firing = [a for a in alerts if a.get('status') == 'firing']. -/
def firingOf (alerts : List Alert) : List Alert :=
  alerts.filter fun a => a.status == some "firing"

/-- resolved = [a for a in alerts if a.get('status') == 'resolved']. -/
def resolvedOf (alerts : List Alert) : List Alert :=
  alerts.filter fun a => a.status == some "resolved"

/-- The embeds list accumulated by send_to_discord (lines 125-131): the
first 10 firing alerts translated, then resolved alerts translated up to
the remaining capacity. -/
def buildEmbeds (now : String) (alerts : List Alert) : List Embed :=
  let embeds := ((firingOf alerts).take 10).map (format_alert_for_discord now)
  embeds ++ ((resolvedOf alerts).take (10 - embeds.length)).map (format_alert_for_discord now)

/-- The outbound Discord webhook payload; content holds the optional
summary line ("content" key omitted when none). -/
structure Payload where
  username : String
  avatar_url : String
  embeds : List Embed
  content : Option String
deriving DecidableEq

/-- The summary content of send_to_discord (lines 143-153): the firing
part, the resolved part, joined with " | "; none when both counts are 0. -/
def summaryContent (firing_count resolved_count : Nat) : Option String :=
  let summary_parts : List String :=
    (if firing_count ≠ 0 then
      ["🔥 " ++ toString firing_count ++ " alert" ++
        (if firing_count ≠ 1 then "s" else "") ++ " firing"]
     else []) ++
    (if resolved_count ≠ 0 then
      ["✅ " ++ toString resolved_count ++ " resolved"]
     else [])
  if summary_parts ≠ [] then some (pyjoin " | " summary_parts) else none

/-- The full payload built by send_to_discord (lines 137-153). -/
def buildPayload (now : String) (alerts : List Alert) : Payload :=
  { username := "Hall Monitor Alerts"
    avatar_url := "https://raw.githubusercontent.com/prometheus/prometheus/main/documentation/images/prometheus-logo.svg"
    embeds := buildEmbeds now alerts
    content := summaryContent (firingOf alerts).length (resolvedOf alerts).length }

/-- send_to_discord (lines 111-166).  The Bool component is the returned
success flag; the Option Payload component records the outbound HTTP call
(none = no call was made).  postOk abstracts whether the POST succeeds. -/
def send_to_discord (now : String) (postOk : Payload → Bool) (webhook_url : String)
    (alerts : List Alert) : Bool × Option Payload :=
  if webhook_url = "" then (false, none)
  else if buildEmbeds now alerts = [] then (true, none)
  else (postOk (buildPayload now alerts), some (buildPayload now alerts))

/-! Helper lemmas and field decomposition. -/

/-- Truncation never yields more than n characters. -/
theorem pytrunc_length_le (s : String) (n : Nat) : (pytrunc s n).length ≤ n := by
  show (s.data.take n).length ≤ n
  simp

/-- The Monitor entry contributed to the fields list. -/
def monitorPart (a : Alert) : List Field :=
  if monitorOf a ≠ "unknown" then [⟨"Monitor", monitorOf a, true⟩] else []

/-- The Component entry contributed to the fields list. -/
def componentPart (a : Alert) : List Field :=
  if componentOf a ≠ "" then [⟨"Component", componentOf a, true⟩] else []

/-- The Severity entry contributed to the fields list. -/
def severityPart (a : Alert) : List Field := [⟨"Severity", pyupper (severityOf a), true⟩]

/-- The Details entry contributed to the fields list. -/
def detailsPart (a : Alert) : List Field :=
  if truthy (a.annotations.lookup "description") then
    [⟨"Details", pytrunc ((a.annotations.lookup "description").getD "") 1024, false⟩]
  else []

/-- The Dashboard entry contributed to the fields list. -/
def dashboardPart (a : Alert) : List Field :=
  if truthy (a.annotations.lookup "dashboard") then
    [⟨"Dashboard", "[View Dashboard](" ++ (a.annotations.lookup "dashboard").getD "" ++ ")",
      false⟩]
  else []

/-- The Labels entry contributed to the fields list. -/
def labelsPart (a : Alert) : List Field :=
  if otherLabels a ≠ [] then
    [⟨"Labels", pytrunc (pyjoin ", " ((otherLabels a).map fun kv => kv.1 ++ "=" ++ kv.2)) 1024,
      false⟩]
  else []

/-- The fields list built by format_alert_for_discord decomposes as the
concatenation of the six per-field contributions, in the source's order. -/
theorem format_fields_eq (now : String) (a : Alert) :
    (format_alert_for_discord now a).fields =
      monitorPart a ++ componentPart a ++ severityPart a ++ detailsPart a ++
        dashboardPart a ++ labelsPart a := by
  show buildFieldsList a = _
  simp only [buildFieldsList, monitorPart, componentPart, severityPart, detailsPart,
    dashboardPart, labelsPart]
  split_ifs <;> simp

/-- Every entry of monitorPart is named Monitor. -/
theorem monitorPart_name {a : Alert} {f : Field} (h : f ∈ monitorPart a) :
    f.name = "Monitor" := by
  unfold monitorPart at h
  split at h
  · rw [List.mem_singleton.mp h]
  · exact absurd h (List.not_mem_nil f)

/-- Every entry of componentPart is named Component. -/
theorem componentPart_name {a : Alert} {f : Field} (h : f ∈ componentPart a) :
    f.name = "Component" := by
  unfold componentPart at h
  split at h
  · rw [List.mem_singleton.mp h]
  · exact absurd h (List.not_mem_nil f)

/-- Every entry of severityPart is named Severity. -/
theorem severityPart_name {a : Alert} {f : Field} (h : f ∈ severityPart a) :
    f.name = "Severity" := by
  rw [List.mem_singleton.mp h]

/-- Every entry of detailsPart is named Details, with a value of at most
1024 characters. -/
theorem detailsPart_name_value {a : Alert} {f : Field} (h : f ∈ detailsPart a) :
    f.name = "Details" ∧ f.value.length ≤ 1024 := by
  unfold detailsPart at h
  split at h
  · rw [List.mem_singleton.mp h]
    exact ⟨rfl, pytrunc_length_le _ _⟩
  · exact absurd h (List.not_mem_nil f)

/-- Every entry of dashboardPart is named Dashboard. -/
theorem dashboardPart_name {a : Alert} {f : Field} (h : f ∈ dashboardPart a) :
    f.name = "Dashboard" := by
  unfold dashboardPart at h
  split at h
  · rw [List.mem_singleton.mp h]
  · exact absurd h (List.not_mem_nil f)

/-- Every entry of labelsPart is named Labels, with a value of at most
1024 characters. -/
theorem labelsPart_name_value {a : Alert} {f : Field} (h : f ∈ labelsPart a) :
    f.name = "Labels" ∧ f.value.length ≤ 1024 := by
  unfold labelsPart at h
  split at h
  · rw [List.mem_singleton.mp h]
    exact ⟨rfl, pytrunc_length_le _ _⟩
  · exact absurd h (List.not_mem_nil f)

/-- The embeds list equals the first min(10, firingCount) firing alerts
translated, followed by the first (10 − min(10, firingCount)) resolved
alerts translated. -/
theorem buildEmbeds_eq (now : String) (alerts : List Alert) :
    buildEmbeds now alerts =
      ((firingOf alerts).take (min 10 (firingOf alerts).length)).map
          (format_alert_for_discord now) ++
        ((resolvedOf alerts).take (10 - min 10 (firingOf alerts).length)).map
          (format_alert_for_discord now) := by
  have ht : (firingOf alerts).take 10 = (firingOf alerts).take (min 10 (firingOf alerts).length) := by
    rw [List.take_eq_take]
    simp
  simp only [buildEmbeds, List.length_map, List.length_take]
  rw [ht]

/-- The embeds list never exceeds 10 entries. -/
theorem buildEmbeds_length_le (now : String) (alerts : List Alert) :
    (buildEmbeds now alerts).length ≤ 10 := by
  rw [buildEmbeds_eq]
  simp only [List.length_append, List.length_map, List.length_take]
  omega

/-- The firing part of the summary line, with its pluralization. -/
def firePart (n : Nat) : String :=
  "🔥 " ++ toString n ++ " alert" ++ (if n ≠ 1 then "s" else "") ++ " firing"

/-- The resolved part of the summary line. -/
def resolvedPart (n : Nat) : String := "✅ " ++ toString n ++ " resolved"

/-- summaryContent as an explicit case split over the two counts. -/
theorem summaryContent_eq (f r : Nat) :
    summaryContent f r =
      if f ≠ 0 ∧ r ≠ 0 then some (firePart f ++ " | " ++ resolvedPart r)
      else if f ≠ 0 then some (firePart f)
      else if r ≠ 0 then some (resolvedPart r)
      else none := by
  unfold summaryContent firePart resolvedPart
  by_cases hf : f = 0 <;> by_cases hr : r = 0 <;> simp [hf, hr, pyjoin]

/-! Claim theorems. -/

/-- C9: translate appends the card's fields in the fixed order Monitor,
Component, Severity, Details, Dashboard, Labels — Monitor only when
monitor ≠ "unknown", Component whenever component is truthy (non-empty),
Severity always with the value uppercased, Details from a present
non-empty annotations.description, Dashboard from a present non-empty
annotations.dashboard rendered as a markdown link labelled View Dashboard,
and Labels from all labels except alertname, severity, monitor and
component serialized as k=v pairs joined by ", ", omitted when no such
labels remain. -/
theorem c9_fields_order (now : String) (a : Alert) :
    (format_alert_for_discord now a).fields =
      (if monitorOf a ≠ "unknown" then [Field.mk "Monitor" (monitorOf a) true] else []) ++
      (if componentOf a ≠ "" then [Field.mk "Component" (componentOf a) true] else []) ++
      [Field.mk "Severity" (pyupper (severityOf a)) true] ++
      (if truthy (a.annotations.lookup "description") then
        [Field.mk "Details" (pytrunc ((a.annotations.lookup "description").getD "") 1024) false]
       else []) ++
      (if truthy (a.annotations.lookup "dashboard") then
        [Field.mk "Dashboard"
          ("[View Dashboard](" ++ (a.annotations.lookup "dashboard").getD "" ++ ")") false]
       else []) ++
      (if otherLabels a ≠ [] then
        [Field.mk "Labels"
          (pytrunc (pyjoin ", " ((otherLabels a).map fun kv => kv.1 ++ "=" ++ kv.2)) 1024) false]
       else []) :=
  format_fields_eq now a

/-- C6: the colorCode assigned by translate always comes from the 4-entry
COLORS table, looked up at the selected category, which is one of
critical, warning, info, resolved. -/
theorem c6_color_table (now : String) (a : Alert) :
    (format_alert_for_discord now a).color = colorOf (categoryOf a) ∧
    (categoryOf a = "critical" ∨ categoryOf a = "warning" ∨ categoryOf a = "info" ∨
      categoryOf a = "resolved") ∧
    COLORS.lookup (categoryOf a) = some ((format_alert_for_discord now a).color) := by
  refine ⟨rfl, ?_, ?_⟩
  · unfold categoryOf
    split_ifs <;> decide
  · show COLORS.lookup (categoryOf a) = some (colorOf (categoryOf a))
    unfold categoryOf
    split_ifs <;> decide

/-- C3: translate chooses (colorCode, titlePrefix) by the strict priority
chain resolved status, then critical severity, then warning severity, then
info; in particular a resolved alert gets the resolved color and RESOLVED
prefix regardless of its severity label. -/
theorem c3_priority_chain (now : String) (a : Alert) :
    ((format_alert_for_discord now a).color =
        (if statusOf a = "resolved" then 0x00FF00
         else if severityOf a = "critical" then 0xFF0000
         else if severityOf a = "warning" then 0xFFA500
         else 0x00FF00) ∧
      (format_alert_for_discord now a).title =
        (if statusOf a = "resolved" then "✅ RESOLVED"
         else if severityOf a = "critical" then "🔥 CRITICAL"
         else if severityOf a = "warning" then "⚠️ WARNING"
         else "ℹ️ INFO") ++ ": " ++ alertNameOf a) ∧
    (statusOf a = "resolved" →
      (format_alert_for_discord now a).color = 0x00FF00 ∧
      (format_alert_for_discord now a).title = "✅ RESOLVED: " ++ alertNameOf a) := by
  have hc : (format_alert_for_discord now a).color =
      (if statusOf a = "resolved" then 0x00FF00
       else if severityOf a = "critical" then 0xFF0000
       else if severityOf a = "warning" then 0xFFA500
       else 0x00FF00) := by
    show colorOf (categoryOf a) = _
    unfold categoryOf
    split_ifs <;> decide
  have ht : (format_alert_for_discord now a).title =
      (if statusOf a = "resolved" then "✅ RESOLVED"
       else if severityOf a = "critical" then "🔥 CRITICAL"
       else if severityOf a = "warning" then "⚠️ WARNING"
       else "ℹ️ INFO") ++ ": " ++ alertNameOf a := rfl
  refine ⟨⟨hc, ht⟩, fun h => ⟨?_, ?_⟩⟩
  · rw [hc, if_pos h]
  · rw [ht, if_pos h]
    exact congrArg (· ++ alertNameOf a) (by decide)

/-- A concrete firing alert used by the batching scenarios. -/
def mkFiring (i : Nat) : Alert := ⟨some "firing", [("alertname", "F" ++ toString i)], [], none⟩

/-- A concrete resolved alert used by the batching scenarios. -/
def mkResolved (i : Nat) : Alert := ⟨some "resolved", [("alertname", "R" ++ toString i)], [], none⟩

/-- 12 firing and 3 resolved alerts, interleaved. -/
def scenario12firing3resolved : List Alert :=
  [mkFiring 0, mkFiring 1, mkFiring 2, mkFiring 3, mkResolved 0,
   mkFiring 4, mkFiring 5, mkFiring 6, mkFiring 7, mkResolved 1,
   mkFiring 8, mkFiring 9, mkFiring 10, mkFiring 11, mkResolved 2]

/-- 3 firing and 3 resolved alerts, interleaved. -/
def scenario3firing3resolved : List Alert :=
  [mkFiring 0, mkResolved 0, mkFiring 1, mkResolved 1, mkFiring 2, mkResolved 2]

/-- C2: the outbound batch is capped at 10 cards with firing alerts
prioritized: it equals the first min(10, firingCount) firing alerts
translated, followed by the first (10 − that many) resolved alerts
translated, preserving input order within each group; 12 firing and 3
resolved alerts yield exactly the first 10 firing and no resolved, and 3
firing and 3 resolved yield all 6 with firing first. -/
theorem c2_batch_cap_priority :
    (∀ (now : String) (alerts : List Alert),
      buildEmbeds now alerts =
        ((firingOf alerts).take (min 10 (firingOf alerts).length)).map
            (format_alert_for_discord now) ++
          ((resolvedOf alerts).take (10 - min 10 (firingOf alerts).length)).map
            (format_alert_for_discord now) ∧
      (buildEmbeds now alerts).length ≤ 10) ∧
    buildEmbeds "T" scenario12firing3resolved =
      ([mkFiring 0, mkFiring 1, mkFiring 2, mkFiring 3, mkFiring 4, mkFiring 5, mkFiring 6,
        mkFiring 7, mkFiring 8, mkFiring 9].map (format_alert_for_discord "T")) ∧
    buildEmbeds "T" scenario3firing3resolved =
      ([mkFiring 0, mkFiring 1, mkFiring 2, mkResolved 0, mkResolved 1, mkResolved 2].map
        (format_alert_for_discord "T")) := by
  refine ⟨fun now alerts => ⟨buildEmbeds_eq now alerts, buildEmbeds_length_le now alerts⟩, ?_, ?_⟩
  · decide
  · decide

/-- C3 witness: a resolved alert with a critical severity label gets the
resolved color and prefix. -/
def resolvedCriticalAlert : Alert :=
  ⟨some "resolved", [("severity", "critical"), ("alertname", "DiskFull")], [], none⟩

theorem c3_priority_chain_witness :
    (format_alert_for_discord "T" resolvedCriticalAlert).color = 0x00FF00 ∧
    (format_alert_for_discord "T" resolvedCriticalAlert).title = "✅ RESOLVED: DiskFull" := by
  have h := (c3_priority_chain "T" resolvedCriticalAlert).2 (by decide)
  refine ⟨h.1, ?_⟩
  rw [h.2]
  decide

/-- C7: when the destination URL is configured and the resulting card
sequence is empty, send_to_discord returns success without performing any
outbound HTTP call (the Option Payload component is none). -/
theorem c7_empty_batch_noop (now : String) (postOk : Payload → Bool) (webhook_url : String)
    (alerts : List Alert) (hurl : webhook_url ≠ "") (hempty : buildEmbeds now alerts = []) :
    send_to_discord now postOk webhook_url alerts = (true, none) := by
  unfold send_to_discord
  rw [if_neg hurl, if_pos hempty]

/-- C7 witness: the empty alerts list with a configured URL yields success
and no outbound call, even under an oracle that fails every POST. -/
theorem c7_empty_batch_noop_witness :
    send_to_discord "T" (fun _ => false) "https://discord.example/webhook" [] = (true, none) :=
  c7_empty_batch_noop "T" (fun _ => false) "https://discord.example/webhook" [] (by decide) rfl

/-- C8: for every non-empty batch the outbound payload is posted and its
content is the summary line: the firing part (pluralized exactly when the
count is not 1) when firingCount > 0, the resolved part when
resolvedCount > 0, joined with " | ", and omitted when both counts are
zero. -/
theorem c8_summary_line (now : String) (postOk : Payload → Bool) (webhook_url : String)
    (alerts : List Alert) (hurl : webhook_url ≠ "") (hne : buildEmbeds now alerts ≠ []) :
    (send_to_discord now postOk webhook_url alerts).2 = some (buildPayload now alerts) ∧
    (buildPayload now alerts).content =
      (if (firingOf alerts).length ≠ 0 ∧ (resolvedOf alerts).length ≠ 0 then
        some (firePart (firingOf alerts).length ++ " | " ++
          resolvedPart (resolvedOf alerts).length)
       else if (firingOf alerts).length ≠ 0 then some (firePart (firingOf alerts).length)
       else if (resolvedOf alerts).length ≠ 0 then some (resolvedPart (resolvedOf alerts).length)
       else none) := by
  constructor
  · unfold send_to_discord
    rw [if_neg hurl, if_neg hne]
  · exact summaryContent_eq _ _

/-- C8 witness: 2 firing and 1 resolved alerts. -/
def w8alerts : List Alert := [mkFiring 0, mkFiring 1, mkResolved 0]

theorem c8_summary_line_witness :
    (send_to_discord "T" (fun _ => true) "https://discord.example/webhook" w8alerts).2 =
      some (buildPayload "T" w8alerts) ∧
    (buildPayload "T" w8alerts).content = some "🔥 2 alerts firing | ✅ 1 resolved" := by
  have h := c8_summary_line "T" (fun _ => true) "https://discord.example/webhook" w8alerts
    (by decide) (by decide)
  refine ⟨h.1, ?_⟩
  rw [h.2]
  decide

/-- C5 counterexample input: summary annotation present but empty. -/
def c5cexAlert : Alert := ⟨some "firing", [("alertname", "DiskFull")], [("summary", "")], none⟩

/-- C5 counterexample: with a present-but-empty summary the description is
the empty string, not the generated default the claim requires. -/
theorem c5_counterexample :
    (format_alert_for_discord "T" c5cexAlert).description = "" ∧
    (format_alert_for_discord "T" c5cexAlert).description ≠ "Alert DiskFull is firing" := by
  decide

/-- C5 (amended): the description equals annotations.summary whenever the
summary key is present — including when its value is the empty string —
and equals the generated default "Alert <alertname> is <status>" exactly
when the key is absent. -/
theorem c5_description_amended (now : String) (a : Alert) :
    (∀ v : String, a.annotations.lookup "summary" = some v →
      (format_alert_for_discord now a).description = v) ∧
    (a.annotations.lookup "summary" = none →
      (format_alert_for_discord now a).description =
        "Alert " ++ alertNameOf a ++ " is " ++ statusOf a) := by
  constructor
  · intro v hv
    show lookupD a.annotations "summary" _ = v
    unfold lookupD
    rw [hv]
  · intro hn
    show lookupD a.annotations "summary" _ = _
    unfold lookupD
    rw [hn]

/-- C5 witness input with a non-empty summary. -/
def c5wPresent : Alert := ⟨some "firing", [("alertname", "Disk")], [("summary", "Disk at 95%")], none⟩

/-- C5 witness input with no summary key. -/
def c5wAbsent : Alert := ⟨some "firing", [("alertname", "Disk")], [], none⟩

theorem c5_description_amended_witness :
    (format_alert_for_discord "T" c5wPresent).description = "Disk at 95%" ∧
    (format_alert_for_discord "T" c5wAbsent).description = "Alert Disk is firing" := by
  refine ⟨(c5_description_amended "T" c5wPresent).1 "Disk at 95%" rfl, ?_⟩
  have h := (c5_description_amended "T" c5wAbsent).2 rfl
  rw [h]
  decide

/-- A 1500-character monitor label value. -/
def longMonitor : String := String.mk (List.replicate 1500 'a')

/-- C1 counterexample input: an alert whose monitor label is 1500
characters long. -/
def c1cexAlert : Alert := ⟨some "firing", [("monitor", longMonitor)], [], none⟩

/-- C1 counterexample: the 1500-character monitor value flows into the
Monitor field untruncated, so not every field value longer than 1024
characters is truncated. -/
theorem c1_counterexample :
    (format_alert_for_discord "T" c1cexAlert).fields =
      [Field.mk "Monitor" longMonitor true, Field.mk "Component" "system" true,
       Field.mk "Severity" "INFO" true] ∧
    1024 < longMonitor.length := by
  refine ⟨rfl, ?_⟩
  show 1024 < (List.replicate 1500 'a').length
  rw [List.length_replicate]
  omega

/-- C1 (amended): only the Details and Labels field values are truncated
to at most 1024 characters; any field named Details or Labels on a
produced card has a value of at most 1024 characters, while the other
field values are passed through unmodified. -/
theorem c1_truncation_details_labels (now : String) (a : Alert) (f : Field)
    (hf : f ∈ (format_alert_for_discord now a).fields)
    (hname : f.name = "Details" ∨ f.name = "Labels") :
    f.value.length ≤ 1024 := by
  rw [format_fields_eq] at hf
  simp only [List.mem_append] at hf
  rcases hf with ((((hf | hf) | hf) | hf) | hf) | hf
  · rcases hname with hn | hn <;> rw [monitorPart_name hf] at hn <;> exact absurd hn (by decide)
  · rcases hname with hn | hn <;> rw [componentPart_name hf] at hn <;> exact absurd hn (by decide)
  · rcases hname with hn | hn <;> rw [severityPart_name hf] at hn <;> exact absurd hn (by decide)
  · exact (detailsPart_name_value hf).2
  · rcases hname with hn | hn <;> rw [dashboardPart_name hf] at hn <;> exact absurd hn (by decide)
  · exact (labelsPart_name_value hf).2

/-- A 1500-character description annotation value. -/
def longDetails : String := String.mk (List.replicate 1500 'b')

/-- C1 witness input: an alert with a 1500-character description. -/
def c1wAlert : Alert := ⟨some "firing", [], [("description", longDetails)], none⟩

theorem c1_truncation_witness :
    (Field.mk "Details" (pytrunc longDetails 1024) false).value.length ≤ 1024 := by
  refine c1_truncation_details_labels "T" c1wAlert _ ?_ (Or.inl rfl)
  have hfe : (format_alert_for_discord "T" c1wAlert).fields =
      [Field.mk "Component" "system" true, Field.mk "Severity" "INFO" true,
       Field.mk "Details" (pytrunc longDetails 1024) false] := rfl
  rw [hfe]
  simp

/-- C4: translate is total (the embedding is a total function) and applies
the documented defaults for every missing optional field: a missing
startsAt yields the current time, a missing status is read as firing, a
missing severity as info (uppercased to INFO in the Severity field), a
missing monitor as unknown (hence no Monitor field), a missing alertname
as Alert, and a missing component as system (still emitted as a Component
field). -/
theorem c4_total_defaults (now : String) (a : Alert) :
    (a.startsAt = none → (format_alert_for_discord now a).timestamp = now) ∧
    (a.status = none → statusOf a = "firing") ∧
    (a.labels.lookup "severity" = none → severityOf a = "info" ∧
      Field.mk "Severity" "INFO" true ∈ (format_alert_for_discord now a).fields) ∧
    (a.labels.lookup "monitor" = none → monitorOf a = "unknown" ∧
      ∀ f ∈ (format_alert_for_discord now a).fields, f.name ≠ "Monitor") ∧
    (a.labels.lookup "alertname" = none → alertNameOf a = "Alert") ∧
    (a.labels.lookup "component" = none → componentOf a = "system" ∧
      Field.mk "Component" "system" true ∈ (format_alert_for_discord now a).fields) ∧
    (a.status = none ∧ a.labels.lookup "alertname" = none ∧
        a.annotations.lookup "summary" = none →
      (format_alert_for_discord now a).description = "Alert Alert is firing") := by
  refine ⟨?_, ?_, ?_, ?_, ?_, ?_, ?_⟩
  · intro h
    show a.startsAt.getD now = now
    rw [h]
    rfl
  · intro h
    show a.status.getD "firing" = "firing"
    rw [h]
    rfl
  · intro h
    have hsev : severityOf a = "info" := by
      unfold severityOf lookupD
      rw [h]
    refine ⟨hsev, ?_⟩
    have hs : severityPart a = [Field.mk "Severity" "INFO" true] := by
      unfold severityPart
      rw [hsev]
      decide
    rw [format_fields_eq, hs]
    simp
  · intro h
    have hmon : monitorOf a = "unknown" := by
      unfold monitorOf lookupD
      rw [h]
    refine ⟨hmon, ?_⟩
    have hmp : monitorPart a = [] := by
      unfold monitorPart
      rw [hmon]
      simp
    intro f hf
    rw [format_fields_eq, hmp] at hf
    simp only [List.nil_append, List.mem_append] at hf
    rcases hf with (((hf | hf) | hf) | hf) | hf
    · rw [componentPart_name hf]
      decide
    · rw [severityPart_name hf]
      decide
    · rw [(detailsPart_name_value hf).1]
      decide
    · rw [dashboardPart_name hf]
      decide
    · rw [(labelsPart_name_value hf).1]
      decide
  · intro h
    unfold alertNameOf lookupD
    rw [h]
  · intro h
    have hcomp : componentOf a = "system" := by
      unfold componentOf lookupD
      rw [h]
    refine ⟨hcomp, ?_⟩
    have hcp : componentPart a = [Field.mk "Component" "system" true] := by
      unfold componentPart
      rw [hcomp]
      simp
    rw [format_fields_eq, hcp]
    simp
  · rintro ⟨h1, h2, h3⟩
    have hname : alertNameOf a = "Alert" := by
      unfold alertNameOf lookupD
      rw [h2]
    have hst : statusOf a = "firing" := by
      show a.status.getD "firing" = "firing"
      rw [h1]
      rfl
    show lookupD a.annotations "summary" _ = _
    unfold lookupD
    rw [h3, hname, hst]
    decide

/-- C4 witness input: the alert with every optional part missing. -/
def emptyAlert : Alert := ⟨none, [], [], none⟩

theorem c4_total_defaults_witness :
    (format_alert_for_discord "2024-01-01T00:00:00" emptyAlert).timestamp =
      "2024-01-01T00:00:00" ∧
    Field.mk "Severity" "INFO" true ∈
      (format_alert_for_discord "2024-01-01T00:00:00" emptyAlert).fields ∧
    Field.mk "Component" "system" true ∈
      (format_alert_for_discord "2024-01-01T00:00:00" emptyAlert).fields ∧
    (format_alert_for_discord "2024-01-01T00:00:00" emptyAlert).description =
      "Alert Alert is firing" := by
  have h := c4_total_defaults "2024-01-01T00:00:00" emptyAlert
  exact ⟨h.1 rfl, (h.2.2.1 rfl).2, (h.2.2.2.2.2.1 rfl).2, h.2.2.2.2.2.2 ⟨rfl, rfl, rfl⟩⟩

/-- C10 counterexample input: a present but unrecognized status value. -/
def c10cexAlert : Alert := ⟨some "pending", [], [], none⟩

/-- C10 counterexample: translate keeps an unrecognized status value
as-is — the generated description embeds "pending" and the card differs
from the one for the same alert with status firing — so translate does
not default such a status to firing. -/
theorem c10_counterexample :
    (format_alert_for_discord "T" c10cexAlert).description = "Alert Alert is pending" ∧
    format_alert_for_discord "T" c10cexAlert ≠
      format_alert_for_discord "T" ⟨some "firing", [], [], none⟩ := by
  decide

/-- C10 (amended): dispatch silently excludes any alert whose status key
is absent, or whose status value is neither firing nor resolved, from the
outbound card batch and from both summary counts; translate applied
directly to such an alert still produces a card, defaulting the status to
firing exactly when the status key is absent. -/
theorem c10_unknown_status_excluded (now : String) (alerts : List Alert) :
    buildEmbeds now alerts =
      buildEmbeds now (alerts.filter fun a =>
        a.status == some "firing" || a.status == some "resolved") ∧
    firingOf alerts =
      firingOf (alerts.filter fun a =>
        a.status == some "firing" || a.status == some "resolved") ∧
    resolvedOf alerts =
      resolvedOf (alerts.filter fun a =>
        a.status == some "firing" || a.status == some "resolved") ∧
    ∀ a : Alert, a.status = none →
      format_alert_for_discord now a =
        format_alert_for_discord now { a with status := some "firing" } := by
  have hf : firingOf (alerts.filter fun a =>
      a.status == some "firing" || a.status == some "resolved") = firingOf alerts := by
    unfold firingOf
    rw [List.filter_filter]
    apply List.filter_congr
    intro a _
    cases hs : a.status == some "firing" <;> simp [hs]
  have hr : resolvedOf (alerts.filter fun a =>
      a.status == some "firing" || a.status == some "resolved") = resolvedOf alerts := by
    unfold resolvedOf
    rw [List.filter_filter]
    apply List.filter_congr
    intro a _
    cases hs : a.status == some "resolved" <;> simp [hs]
  refine ⟨?_, hf.symm, hr.symm, ?_⟩
  · unfold buildEmbeds
    rw [hf, hr]
  · intro a h
    cases a with
    | mk st lb an sa =>
      cases h
      rfl

/-- C10 witness input: an alert with no status key. -/
def c10wAlert : Alert := ⟨none, [("alertname", "NoStatus")], [], none⟩

theorem c10_unknown_status_witness :
    buildEmbeds "T" [c10cexAlert, c10wAlert] = buildEmbeds "T" ([] : List Alert) ∧
    format_alert_for_discord "T" c10wAlert =
      format_alert_for_discord "T" { c10wAlert with status := some "firing" } := by
  have h := c10_unknown_status_excluded "T" [c10cexAlert, c10wAlert]
  exact ⟨h.1.trans (by decide), h.2.2.2 c10wAlert rfl⟩

end DiscordAdapter
